import Mathlib

/-!
Verification development for the shopit e-commerce backend.

This file gives a shallow embedding of the order-creation workflow, the
order-fulfillment (status transition) handler, the product review
aggregation use cases, and the paginated catalog query, translated from
the Go sources:

* `internal/orders/usecase/usecase.go`   (`OrderUC.CreateOrder`, `OrderUC.UpdateStock`)
* `internal/orders/delivery/handlers.go` (`OrderHandlers.CreateOrder`, `OrderHandlers.UpdateOrder`)
* `internal/orders/repository`           (insert/fetch/delete over the orders tables)
* `internal/products/usecase/usecase.go` (`ProductsUC.CreateProductReview`, `ProductsUC.DeleteProductReview`)
* `internal/products/repository/repository.go` (`ProdRepository.FetchProductByName`)

Modelling conventions: `uuid.UUID` is a natural number with `0` playing the
role of `uuid.Nil`; database-generated identifiers come from a fresh-id
counter and are always nonzero.  `time.Time` is a natural number, `0` being
the zero value.  Go `error` values are abstract codes (`Nat`).  The SQL
store is a record of lists of rows; each repository function manipulates it
exactly as the corresponding SQL statement would on a functioning database.
A Go runtime panic (index out of range, integer division by zero) is
modelled by an `Option` result being `none`.
-/

namespace Shopit

/-- Model of `uuid.UUID`: `0` plays the role of `uuid.Nil`. -/
abbrev UUID := Nat

/-- Model of a Go `error` value: an abstract error code. -/
abbrev Err := Nat

/-- `models.Shipping`. -/
structure Shipping where
  id : UUID
  address : String
  city : String
  phoneNo : String
  postalCode : String
  country : String
  orderID : UUID
  createdAt : Nat
deriving Repr, DecidableEq

/-- `models.Item`. -/
structure Item where
  itemID : UUID
  name : String
  price : Int
  quantity : Int
  image : String
  productID : UUID
  orderID : UUID
  createdAt : Nat
deriving Repr, DecidableEq

/-- `models.Payment`.  The payment id is the caller-supplied gateway string. -/
structure Payment where
  id : String
  status : String
  orderID : UUID
  createdAt : Nat
deriving Repr, DecidableEq

/-- `models.Order`.  `taxPrice` is a `float64` in the source; it is carried
here as an integer since no claim depends on its fractional part. -/
structure Order where
  orderID : UUID
  shippingInfo : Shipping
  orderItems : List Item
  paymentInfo : Payment
  userID : UUID
  paidAt : Nat
  itemPrice : Int
  taxPrice : Int
  shippingPrice : Int
  totalPrice : Int
  orderStatus : String
  deliveredAt : Nat
  createdAt : Nat
deriving Repr, DecidableEq

/-- A row of the `orders` table: exactly the columns written by
`OrdersRepository.InsertOrder` (the dependent aggregates live in their own
tables). -/
structure OrderRow where
  orderID : UUID
  userID : UUID
  paidAt : Nat
  itemPrice : Int
  taxPrice : Int
  shippingPrice : Int
  totalPrice : Int
  orderStatus : String
  deliveredAt : Nat
  createdAt : Nat
deriving Repr, DecidableEq

/-- The relational store backing the orders repository: one list of rows per
table, plus the fresh-id counter standing for the database's uuid
generator.  Generated ids are `nextId + 1, nextId + 2, …`, hence nonzero. -/
structure OrdersStore where
  orders : List OrderRow
  shippings : List Shipping
  items : List Item
  payments : List Payment
  nextId : Nat
deriving Repr, DecidableEq

/-- Fault injection for the four insert statements of the order workflow:
`some e` makes the corresponding repository call fail with error `e`, `none`
lets it succeed. -/
structure Faults where
  orderFail : Option Err
  shipFail : Option Err
  itemFail : Option Err
  payFail : Option Err
deriving Repr, DecidableEq

/-- The id the store's uuid generator hands to the next inserted row. -/
def freshId (st : OrdersStore) : UUID := st.nextId + 1

/-- `OrdersRepository.InsertOrder`: insert the header row (created_at set to
`now`), scan back the generated id.  The returned order is the argument with
`orderID` and `createdAt` overwritten; in particular it still carries the
caller's `orderItems` slice (the Go slice of pointers is aliased, not
copied). -/
def InsertOrder (f : Faults) (now : Nat) (st : OrdersStore) (ord : Order) :
    OrdersStore × Except Err Order :=
  match f.orderFail with
  | some e => (st, .error e)
  | none =>
    let id := freshId st
    let row : OrderRow :=
      { orderID := id, userID := ord.userID, paidAt := ord.paidAt
        itemPrice := ord.itemPrice, taxPrice := ord.taxPrice
        shippingPrice := ord.shippingPrice, totalPrice := ord.totalPrice
        orderStatus := ord.orderStatus, deliveredAt := ord.deliveredAt
        createdAt := now }
    ({ st with orders := st.orders ++ [row], nextId := st.nextId + 1 },
     .ok { ord with orderID := id, createdAt := now })

/-- `OrdersRepository.InsertShipping`: insert the row, scan back the
generated shipping id. -/
def InsertShipping (f : Faults) (now : Nat) (st : OrdersStore) (s : Shipping) :
    OrdersStore × Except Err Shipping :=
  match f.shipFail with
  | some e => (st, .error e)
  | none =>
    let s := { s with id := freshId st, createdAt := now }
    ({ st with shippings := st.shippings ++ [s], nextId := st.nextId + 1 }, .ok s)

/-- `OrdersRepository.InsertItem`: insert the row, scan back the generated
item id. -/
def InsertItem (f : Faults) (now : Nat) (st : OrdersStore) (it : Item) :
    OrdersStore × Except Err Item :=
  match f.itemFail with
  | some e => (st, .error e)
  | none =>
    let it := { it with itemID := freshId st, createdAt := now }
    ({ st with items := st.items ++ [it], nextId := st.nextId + 1 }, .ok it)

/-- `OrdersRepository.InsertPayment`: the payment id is not generated, it is
the caller-supplied string. -/
def InsertPayment (f : Faults) (now : Nat) (st : OrdersStore) (p : Payment) :
    OrdersStore × Except Err Payment :=
  match f.payFail with
  | some e => (st, .error e)
  | none =>
    let p := { p with createdAt := now }
    ({ st with payments := st.payments ++ [p] }, .ok p)

/-- `OrdersRepository.DeleteOrderById`:
`delete from orders where order_id = $1`. -/
def DeleteOrderById (st : OrdersStore) (oid : UUID) : OrdersStore :=
  { st with orders := st.orders.filter (fun r => r.orderID ≠ oid) }

/-- `OrdersRepository.FetchOrderById`:
`select * from orders where order_id = $1`. -/
def FetchOrderById (st : OrdersStore) (oid : UUID) : Option OrderRow :=
  st.orders.find? (fun r => r.orderID == oid)

/-- `OrderUC.CreateOrder` (internal/orders/usecase/usecase.go:22-69).

Mirrors the Go control flow statement by statement.  Crucially:

* on a dependent-insert failure the code runs
  `err = o.repo.DeleteOrderById(order.OrderID)`, *reassigning* `err`; when
  the delete succeeds the function falls through to `return nil, err` with
  `err == nil`, so the caller receives neither an order nor an error —
  modelled as the result pair `(none, none)`;
* `ord.OrderItems[0].OrderID = order.OrderID` mutates the item through a
  shared pointer, so the same updated item is what
  `order.OrderItems = append(order.OrderItems, item)` extends — the
  returned order carries the input items (head updated) plus the inserted
  item;
* `ord.OrderItems[0]` on an empty items slice is a Go index-out-of-range
  panic, modelled by the outer `Option` being `none`. -/
def CreateOrder (f : Faults) (now : Nat) (st : OrdersStore) (ord : Order) :
    Option (OrdersStore × Option Order × Option Err) :=
  match InsertOrder f now st ord with
  | (st1, .error e) => some (st1, none, some e)
  | (st1, .ok order) =>
    let ship := { ord.shippingInfo with orderID := order.orderID }
    match InsertShipping f now st1 ship with
    | (st2, .error _) => some (DeleteOrderById st2 order.orderID, none, none)
    | (st2, .ok shipping) =>
      match ord.orderItems with
      | [] => none
      | it0 :: rest =>
        let it0 := { it0 with orderID := order.orderID }
        match InsertItem f now st2 it0 with
        | (st3, .error _) => some (DeleteOrderById st3 order.orderID, none, none)
        | (st3, .ok item) =>
          let pay := { ord.paymentInfo with orderID := order.orderID }
          match InsertPayment f now st3 pay with
          | (st4, .error _) => some (DeleteOrderById st4 order.orderID, none, none)
          | (st4, .ok payment) =>
            some (st4,
              some { order with
                shippingInfo := shipping
                orderItems := (it0 :: rest) ++ [item]
                paymentInfo := payment },
              none)

/-- `OrderUC.UpdateStock` (internal/orders/usecase/usecase.go:184-191): the
repository error is swallowed — `if err != nil { return nil }` — so the
use case reports success in both branches.  The repository call is
abstracted as a function argument so the statement ranges over every
possible repository outcome. -/
def UpdateStockUC (repoUpdateStock : UUID → Int → Option Err)
    (productId : UUID) (quantity : Int) : Option Err :=
  match repoUpdateStock productId quantity with
  | some _ => none
  | none => none

/-- `models.Reviews`.  The `rating` is a Go `int`. -/
structure Review where
  reviewsId : UUID
  name : String
  rating : Int
  comment : String
  userId : UUID
  productId : UUID
  createdAt : Nat
deriving Repr, DecidableEq

/-- `models.Product`.  The name is carried as a list of characters so that
the catalog query's case-insensitive substring match (`ILIKE`) can be stated
directly. -/
structure Product where
  productId : UUID
  name : List Char
  price : Int
  description : String
  ratings : Int
  category : String
  seller : String
  stock : Int
  numOfReviews : Int
  userId : UUID
  createdAt : Nat
deriving Repr, DecidableEq

/-- The relational store backing the products repository. -/
structure ProdStore where
  products : List Product
  reviews : List Review
  nextId : Nat
deriving Repr, DecidableEq

/-- `ProdRepository.FetchProductById`:
`select * from products where product_id = $1`. -/
def FetchProductById (st : ProdStore) (pid : UUID) : Option Product :=
  st.products.find? (fun p => p.productId == pid)

/-- `ProdRepository.FetchReviewById`:
`select * from reviews where product_id = $1`. -/
def FetchReviewById (st : ProdStore) (pid : UUID) : List Review :=
  st.reviews.filter (fun r => r.productId == pid)

/-- `ProdRepository.InsertReview`: plain insert; the database assigns the
row's `reviews_id` (fresh, nonzero). -/
def InsertReview (st : ProdStore) (r : Review) : ProdStore :=
  { st with
    reviews := st.reviews ++ [{ r with reviewsId := st.nextId + 1 }]
    nextId := st.nextId + 1 }

/-- `ProdRepository.DeleteReviewById`:
`delete from reviews where reviews_id = $1`. -/
def DeleteReviewById (st : ProdStore) (rid : UUID) : ProdStore :=
  { st with reviews := st.reviews.filter (fun r => r.reviewsId ≠ rid) }

/-- `ProdRepository.UpdateProduct`: `update products set … where
product_id = $11` — every column except the key is overwritten on each
matching row. -/
def UpdateProduct (st : ProdStore) (pid : UUID) (p : Product) : ProdStore :=
  { st with
    products := st.products.map
      (fun q => if q.productId == pid then { p with productId := q.productId } else q) }

/-- Rating sum of a list of reviews (the `totalRating` accumulation loop). -/
def totalRating (rs : List Review) : Int := (rs.map (fun r => r.rating)).sum

/-- `ProductsUC.CreateProductReview` (internal/products/usecase/usecase.go:216-248).

Fetch the product and its reviews, append the new review in memory, set
`NumOfReviews` to the new length, insert the review row, recompute the
rating as the Go integer quotient `totalRating / len(reviews)` (truncation
toward zero, `Int.tdiv`), and persist the product.  The in-memory list is
nonempty here, so this division cannot be by zero. -/
def CreateProductReview (st : ProdStore) (review : Review) : ProdStore × Option Err :=
  match FetchProductById st review.productId with
  | none => (st, some 1)
  | some product =>
    let reviews := FetchReviewById st review.productId ++ [review]
    let product := { product with numOfReviews := (reviews.length : Int) }
    let st := InsertReview st review
    let product := { product with ratings := Int.tdiv (totalRating reviews) (reviews.length : Int) }
    (UpdateProduct st review.productId product, none)

/-- `ProductsUC.DeleteProductReview` (internal/products/usecase/usecase.go:261-291).

Delete the review row first, then recompute the aggregate from the
remaining reviews: `product.Ratings = totalRating / len(reviews)`.  When no
review remains, `len(reviews)` is `0` and the Go integer division panics at
runtime; that panic is the `none` result. -/
def DeleteProductReview (st : ProdStore) (productId : UUID) (reviewId : UUID) :
    Option (ProdStore × Option Err) :=
  let st1 := DeleteReviewById st reviewId
  match FetchProductById st1 productId with
  | none => some (st1, some 1)
  | some product =>
    let reviews := FetchReviewById st1 productId
    match reviews.length with
    | 0 => none
    | n + 1 =>
      let product := { product with
        ratings := Int.tdiv (totalRating reviews) ((n : Int) + 1)
        numOfReviews := ((n : Int) + 1) }
      some (UpdateProduct st1 productId product, none)

/-- SQL LIKE pattern matching, case-insensitive (`ILIKE`): `%` matches any
character sequence (including the empty one), `_` matches exactly one
character, and any other pattern character matches one text character up to
lower-casing. -/
def likeMatch : List Char → List Char → Bool
  | [], s => s.isEmpty
  | p :: ps, s =>
    if p = '%' then
      s.tails.any (fun t => likeMatch ps t)
    else
      match s with
      | [] => false
      | x :: t => (if p = '_' then true else Char.toLower p == Char.toLower x) && likeMatch ps t

/-- The filter applied by the catalog query:
`name ILIKE '%' || keyword || '%'`.  The keyword is interpolated into the
pattern unescaped, exactly as the code passes the raw query-string keyword,
so `%` and `_` inside the keyword keep their SQL wildcard meaning. -/
def nameMatches (keyword : List Char) (name : List Char) : Bool :=
  likeMatch ('%' :: (keyword ++ ['%'])) name

/-- Ordering used by `order by created_at` (ascending). -/
def createdLE (a b : Product) : Prop := a.createdAt ≤ b.createdAt

instance : DecidableRel createdLE := fun a b => Nat.decLe a.createdAt b.createdAt

/-- `ProdRepository.FetchProductByName`
(internal/products/repository/repository.go:100-166).

The count is `select count(*) from products` — the size of the whole table,
keyword or not.  The page query filters by `ILIKE` when a keyword is given,
orders by `created_at`, and applies `limit 12 offset (page-1)*12`. -/
def FetchProductByName (db : List Product) (keyword : List Char) (page : Nat) :
    List Product × Nat :=
  let count := db.length
  let limit := 12
  let offset := (page - 1) * limit
  let base := if keyword = [] then db else db.filter (fun p => nameMatches keyword p.name)
  let sorted := base.insertionSort createdLE
  (((sorted.drop offset).take limit), count)

/-- State acted on by the admin order-fulfillment handler: order headers,
order items, and the product stock column. -/
structure FulfillState where
  orders : List OrderRow
  orderItems : List Item
  stocks : List (UUID × Int)
deriving Repr, DecidableEq

/-- `OrdersRepository.UpdateStock`:
`update products set stock = stock - $1 where product_id = $2` —
unconditional decrement of every matching row, no floor check. -/
def UpdateStockRow (stocks : List (UUID × Int)) (productId : UUID) (quantity : Int) :
    List (UUID × Int) :=
  stocks.map (fun s => if s.1 == productId then (s.1, s.2 - quantity) else s)

/-- `OrdersRepository.UpdateOrder`:
`update orders set order_status = $1, delivered_at = $2 where order_id = $3`. -/
def UpdateOrderRow (orders : List OrderRow) (orderId : UUID) (status : String)
    (deliveredAt : Nat) : List OrderRow :=
  orders.map (fun r =>
    if r.orderID == orderId then { r with orderStatus := status, deliveredAt := deliveredAt } else r)

/-- `OrderHandlers.UpdateOrder` (internal/orders/delivery/handlers.go:208-280),
from the point where the order id and a nonempty status have been read.

Fetch the order (`GetSingleOrder`; its dependent shipping/payment lookups
are modelled as succeeding — any failure there also rejects the request
with the state untouched); reject if it is already "Delivered"; otherwise
decrement stock for every item (through `OrderUC.UpdateStock`, which never
reports failure), set the status, stamp `DeliveredAt` with the current time
exactly when the new status is "Delivered" and clear it to the zero value
otherwise, and persist via `UpdateOrder`.  The boolean is the `success`
JSON flag: `false` means the request was rejected and the state returned
unchanged. -/
def UpdateOrderHandler (st : FulfillState) (orderId : UUID) (status : String)
    (now : Nat) : FulfillState × Bool :=
  match st.orders.find? (fun r => r.orderID == orderId) with
  | none => (st, false)
  | some order =>
    if order.orderStatus = "Delivered" then (st, false)
    else
      let items := st.orderItems.filter (fun it => it.orderID == orderId)
      let stocks := items.foldl (fun s it => UpdateStockRow s it.productID it.quantity) st.stocks
      let deliveredAt := if status = "Delivered" then now else 0
      ({ st with
          orders := UpdateOrderRow st.orders orderId status deliveredAt
          stocks := stocks }, true)

/-- One element of the `orderItems` array of the JSON payload accepted by
`OrderHandlers.CreateOrder`. -/
structure ReqItem where
  product : String
  name : String
  price : Int
  image : String
  stock : Int
  quantity : Int
deriving Repr, DecidableEq

/-- The JSON payload accepted by `OrderHandlers.CreateOrder`
(shipping fields flattened; the price strings are kept abstract as the
already-parsed integers the handler derives from them). -/
structure OrderPayload where
  orderItems : List ReqItem
  shipAddress : String
  shipCity : String
  shipPhoneNo : String
  shipPostalCode : String
  shipCountry : String
  itemsPrice : Int
  shippingPrice : Int
  taxPrice : Int
  totalPrice : Int
  paymentId : String
  paymentStatus : String
deriving Repr, DecidableEq

/-- `OrderHandlers.CreateOrder` (internal/orders/delivery/handlers.go:35-124),
from the point where the payload has been decoded.

The very next statement is `uuid.Parse(order.OrderItems[0].Product)`: the
index into element `0` is unguarded, so an empty `orderItems` array is a Go
index-out-of-range panic before any validation — the outer `Option` is
`none`.  A failed uuid parse is a bad-request response (`some none`).
Otherwise the handler copies only the first payload item into the
single-item order aggregate it hands to `OrderUC.CreateOrder`
(`some (some ord)` carries that aggregate). -/
def CreateOrderHandler (parseUUID : String → Option UUID) (userId : UUID)
    (now : Nat) (pl : OrderPayload) : Option (Option Order) :=
  match pl.orderItems with
  | [] => none
  | it :: _ =>
    match parseUUID it.product with
    | none => some none
    | some pid =>
      some (some
        { orderID := 0
          shippingInfo :=
            { id := 0, address := pl.shipAddress, city := pl.shipCity
              phoneNo := pl.shipPhoneNo, postalCode := pl.shipPostalCode
              country := pl.shipCountry, orderID := 0, createdAt := 0 }
          orderItems :=
            [{ itemID := 0, name := it.name, price := it.price
               quantity := it.quantity, image := it.image
               productID := pid, orderID := 0, createdAt := 0 }]
          paymentInfo :=
            { id := pl.paymentId, status := pl.paymentStatus, orderID := 0, createdAt := 0 }
          userID := userId
          paidAt := now
          itemPrice := pl.itemsPrice
          taxPrice := pl.taxPrice
          shippingPrice := pl.shippingPrice
          totalPrice := pl.totalPrice
          orderStatus := "Processing"
          deliveredAt := 0
          createdAt := 0 })

/-! ### Concrete sample inputs used by counterexamples and witnesses -/

/-- No fault injected: every repository insert succeeds. -/
def faultsNone : Faults := ⟨none, none, none, none⟩

/-- An empty orders database. -/
def emptyOrdersStore : OrdersStore := ⟨[], [], [], [], 0⟩

/-- A shipping spec as assembled by the create-order handler (id and order
reference still unset). -/
def sampleShipping : Shipping := ⟨0, "addr", "city", "phone", "post", "gh", 0, 0⟩

/-- An order item as assembled by the create-order handler: `new(models.Item)`
leaves `ItemID` at the zero uuid, then product/name/price/quantity/image are
filled in. -/
def sampleItem : Item := ⟨0, "n", 5, 2, "img", 9, 0, 0⟩

/-- A payment as assembled by the create-order handler. -/
def samplePayment : Payment := ⟨"pay_1", "paid", 0, 0⟩

/-- An order aggregate exactly as `OrderHandlers.CreateOrder` hands it to the
use case. -/
def sampleOrder : Order :=
  ⟨0, sampleShipping, [sampleItem], samplePayment, 3, 7, 10, 1, 2, 13, "Processing", 0, 0⟩

/-- A catalog product. -/
def sampleProduct : Product := ⟨11, ['A', 'b'], 3, "d", 0, "cat", "s", 4, 1, 2, 1⟩

/-- A stored review of `sampleProduct` (its only one). -/
def sampleReview : Review := ⟨1, "u", 4, "c", 2, 11, 0⟩

/-- A product store holding one product with exactly one review. -/
def singleReviewStore : ProdStore := ⟨[sampleProduct], [sampleReview], 1⟩

/-! ### Helper lemmas -/

/-- After `delete from orders where order_id = $1`, no row with that id can
be found. -/
theorem fetchOrderById_deleteOrderById (st : OrdersStore) (oid : UUID) :
    FetchOrderById (DeleteOrderById st oid) oid = none := by
  simp only [FetchOrderById, DeleteOrderById]
  rw [List.find?_eq_none]
  intro x hx
  simp only [List.mem_filter, decide_eq_true_eq] at hx
  simpa using hx.2

/-! ### Claim theorems -/

/-- C1 (code evaluation at the failing input): the order-header insert
succeeds, the shipping insert fails with error `7`, the compensating delete
succeeds — and `CreateOrder` returns neither an order nor an error.  The
original error `7` is lost because `err = o.repo.DeleteOrderById(...)`
reassigns `err` before `return nil, err`, contradicting both the spec and
the function's own contract of returning the error when it fails. -/
theorem createOrder_shipFail_swallows_error :
    CreateOrder ⟨none, some 7, none, none⟩ 5 emptyOrdersStore sampleOrder
      = some ({ orders := [], shippings := [], items := [], payments := [], nextId := 1 },
              none, none) := by
  rfl

/-- C2: whenever the order-header insert succeeds and the shipping insert
then fails (any later fault flags, any store, any input), the compensating
delete runs and the freshly inserted header is no longer retrievable by its
id. -/
theorem createOrder_shipFail_deletes_header (e now : Nat) (fi fp : Option Err)
    (st : OrdersStore) (ord : Order) :
    ∃ st2, CreateOrder ⟨none, some e, fi, fp⟩ now st ord = some (st2, none, none) ∧
      FetchOrderById st2 (freshId st) = none :=
  ⟨_, rfl, fetchOrderById_deleteOrderById _ _⟩

/-- C7 (code evaluation at the failing input): deleting the only remaining
review of a product reaches `product.Ratings = totalRating / len(reviews)`
with `len(reviews) = 0`; the Go integer division by zero is a runtime
panic, modelled by the `none` result — there is no guard. -/
theorem deleteProductReview_last_review_div_by_zero :
    DeleteProductReview singleReviewStore 11 1 = none := by
  rfl

/-- C3 (counterexample): an all-successful run of `CreateOrder` on the
handler-shaped input (whose item carries the zero uuid, as
`new(models.Item)` leaves it) returns an Order whose items list contains an
item with the nil id `0`: the slice aliasing plus
`order.OrderItems = append(order.OrderItems, item)` keeps the input item —
id unset — in front of the freshly inserted one, so "the returned Order's
item id is non-nil" fails as stated. -/
theorem createOrder_returned_item_id_nil :
    ((CreateOrder faultsNone 5 emptyOrdersStore sampleOrder).bind (fun r => r.2.1)).map
      (fun o => o.orderItems.map (fun i => i.itemID)) = some [0, 3] := by
  rfl

/-- C3 (amended): on every all-successful run, the returned Order's id and
shipping id are freshly generated non-nil values, the shipping and payment
order references equal the header id, the payment id is the caller-supplied
string, and the items list is the input items — the first one's order
reference updated to the header id — followed by the newly inserted item,
whose id is non-nil and whose order reference equals the header id. -/
theorem createOrder_success_returned_ids (now : Nat) (st : OrdersStore) (ord : Order)
    (it : Item) (rest : List Item) (h : ord.orderItems = it :: rest) :
    ∃ st4 res, CreateOrder faultsNone now st ord = some (st4, some res, none) ∧
      res.orderID = st.nextId + 1 ∧ res.orderID ≠ 0 ∧
      res.shippingInfo.id = st.nextId + 2 ∧ res.shippingInfo.id ≠ 0 ∧
      res.shippingInfo.orderID = res.orderID ∧
      res.paymentInfo.orderID = res.orderID ∧
      res.paymentInfo.id = ord.paymentInfo.id ∧
      res.orderItems =
        ({ it with orderID := res.orderID } :: rest) ++
          [{ it with orderID := res.orderID, itemID := st.nextId + 3, createdAt := now }] ∧
      st.nextId + 3 ≠ 0 := by
  obtain ⟨oid, ship, items, pay, uid, paid, ip, tp, sp, tot, ost, del, cre⟩ := ord
  simp only at h
  subst h
  exact ⟨_, _, rfl, rfl, Nat.succ_ne_zero _, rfl, Nat.succ_ne_zero _, rfl, rfl, rfl, rfl,
    Nat.succ_ne_zero _⟩

/-- Witness for C3's amended theorem at the sample handler-shaped input. -/
theorem createOrder_success_returned_ids_witness :
    sampleOrder.orderItems = sampleItem :: [] ∧
    ∃ st4 res, CreateOrder faultsNone 5 emptyOrdersStore sampleOrder = some (st4, some res, none) ∧
      res.orderID = emptyOrdersStore.nextId + 1 ∧ res.orderID ≠ 0 ∧
      res.shippingInfo.id = emptyOrdersStore.nextId + 2 ∧ res.shippingInfo.id ≠ 0 ∧
      res.shippingInfo.orderID = res.orderID ∧
      res.paymentInfo.orderID = res.orderID ∧
      res.paymentInfo.id = sampleOrder.paymentInfo.id ∧
      res.orderItems =
        ({ sampleItem with orderID := res.orderID } :: []) ++
          [{ sampleItem with
              orderID := res.orderID
              itemID := emptyOrdersStore.nextId + 3
              createdAt := 5 }] ∧
      emptyOrdersStore.nextId + 3 ≠ 0 :=
  ⟨rfl, createOrder_success_returned_ids 5 emptyOrdersStore sampleOrder sampleItem [] rfl⟩

/-- C4: when the stored order is already "Delivered", the admin update
handler rejects the request (`success = false`) and hands back the state
literally unchanged — stored status, delivered timestamp, and product
stocks included. -/
theorem updateOrderHandler_rejects_delivered (st : FulfillState) (orderId : UUID)
    (status : String) (now : Nat) (o : OrderRow)
    (hfind : st.orders.find? (fun r => r.orderID == orderId) = some o)
    (hdel : o.orderStatus = "Delivered") :
    UpdateOrderHandler st orderId status now = (st, false) := by
  unfold UpdateOrderHandler
  rw [hfind]
  simp [hdel]

/-- A fulfillment state with one already-delivered order, used as witness
input. -/
def deliveredState : FulfillState :=
  ⟨[⟨1, 3, 7, 10, 1, 2, 13, "Delivered", 9, 5⟩], [⟨4, "n", 5, 2, "img", 9, 1, 5⟩], [(9, 4)]⟩

/-- Witness for C4 at a concrete already-delivered order. -/
theorem updateOrderHandler_rejects_delivered_witness :
    deliveredState.orders.find? (fun r => r.orderID == 1)
        = some ⟨1, 3, 7, 10, 1, 2, 13, "Delivered", 9, 5⟩ ∧
    (⟨1, 3, 7, 10, 1, 2, 13, "Delivered", 9, 5⟩ : OrderRow).orderStatus = "Delivered" ∧
    UpdateOrderHandler deliveredState 1 "Shipped" 9 = (deliveredState, false) :=
  ⟨rfl, rfl, updateOrderHandler_rejects_delivered deliveredState 1 "Shipped" 9 _ rfl rfl⟩

/-- C5: a successful transition of an order that is not yet "Delivered"
stamps the stored delivered timestamp with the (nonzero) current time
exactly when the target status is "Delivered", and clears it to the zero
value for every other target status. -/
theorem updateOrderHandler_delivered_timestamp (st : FulfillState) (orderId : UUID)
    (status : String) (now : Nat) (o : OrderRow)
    (hfind : st.orders.find? (fun r => r.orderID == orderId) = some o)
    (hnd : o.orderStatus ≠ "Delivered") (hnow : 0 < now) :
    (UpdateOrderHandler st orderId status now).2 = true ∧
    ∀ row ∈ (UpdateOrderHandler st orderId status now).1.orders, row.orderID = orderId →
      row.orderStatus = status ∧
      (status = "Delivered" → row.deliveredAt = now ∧ row.deliveredAt ≠ 0) ∧
      (status ≠ "Delivered" → row.deliveredAt = 0) := by
  unfold UpdateOrderHandler
  rw [hfind]
  simp only [if_neg hnd]
  refine ⟨by trivial, ?_⟩
  intro row hrow hid
  simp only [UpdateOrderRow, List.mem_map] at hrow
  obtain ⟨a, _, rfl⟩ := hrow
  by_cases hc : a.orderID == orderId
  · simp only [if_pos hc]
    refine ⟨by trivial, fun hd => ⟨by rw [if_pos hd], ?_⟩, fun hd => by rw [if_neg hd]⟩
    rw [if_pos hd]
    exact Nat.pos_iff_ne_zero.mp hnow
  · rw [if_neg hc] at hid
    exact absurd (by simpa using hid) (by simpa using hc)

/-- A fulfillment state with one order still in "Processing", used as
witness input. -/
def processingState : FulfillState :=
  ⟨[⟨1, 3, 7, 10, 1, 2, 13, "Processing", 0, 5⟩], [⟨4, "n", 5, 2, "img", 9, 1, 5⟩], [(9, 4)]⟩

/-- Witness for C5: delivering the concrete processing order stamps the
timestamp. -/
theorem updateOrderHandler_delivered_timestamp_witness :
    processingState.orders.find? (fun r => r.orderID == 1)
        = some ⟨1, 3, 7, 10, 1, 2, 13, "Processing", 0, 5⟩ ∧
    (⟨1, 3, 7, 10, 1, 2, 13, "Processing", 0, 5⟩ : OrderRow).orderStatus ≠ "Delivered" ∧
    0 < 9 ∧
    ((UpdateOrderHandler processingState 1 "Delivered" 9).2 = true ∧
      ∀ row ∈ (UpdateOrderHandler processingState 1 "Delivered" 9).1.orders,
        row.orderID = 1 →
          row.orderStatus = "Delivered" ∧
          ("Delivered" = "Delivered" → row.deliveredAt = 9 ∧ row.deliveredAt ≠ 0) ∧
          ("Delivered" ≠ "Delivered" → row.deliveredAt = 0)) :=
  ⟨rfl, by decide, by decide,
    updateOrderHandler_delivered_timestamp processingState 1 "Delivered" 9 _ rfl
      (by decide) (by decide)⟩

/-- C9: `OrderUC.UpdateStock` reports success for every product id and
quantity, whatever the repository answers — in particular when the
repository stock update fails, the error is swallowed (`if err != nil
{ return nil }`). -/
theorem updateStockUC_always_succeeds (repo : UUID → Int → Option Err)
    (pid : UUID) (q : Int) : UpdateStockUC repo pid q = none := by
  unfold UpdateStockUC
  cases repo pid q <;> rfl

/-- C10: the create-order handler reads only element `0` of the payload's
`orderItems`: an empty list panics (index out of range) before any
validation, and for a list with several items only the first reaches the
order aggregate — and an all-successful `OrderUC.CreateOrder` run on that
aggregate inserts exactly that one item row. -/
theorem createOrderHandler_first_item_only (parse : String → Option UUID)
    (userId now : Nat) (pl : OrderPayload) :
    (pl.orderItems = [] → CreateOrderHandler parse userId now pl = none) ∧
    (∀ it rest pid, pl.orderItems = it :: rest → parse it.product = some pid →
      ∃ ord, CreateOrderHandler parse userId now pl = some (some ord) ∧
        ord.orderItems =
          [{ itemID := 0, name := it.name, price := it.price, quantity := it.quantity
             image := it.image, productID := pid, orderID := 0, createdAt := 0 }] ∧
        ∀ (now2 : Nat) (st : OrdersStore), ∃ st4 res,
          CreateOrder faultsNone now2 st ord = some (st4, some res, none) ∧
          st4.items = st.items ++
            [{ itemID := st.nextId + 3, name := it.name, price := it.price
               quantity := it.quantity, image := it.image, productID := pid
               orderID := st.nextId + 1, createdAt := now2 }]) := by
  constructor
  · intro h
    unfold CreateOrderHandler
    rw [h]
  · intro it rest pid h hp
    unfold CreateOrderHandler
    rw [h]
    simp only [hp]
    refine ⟨_, rfl, rfl, ?_⟩
    intro now2 st
    exact ⟨_, _, rfl, rfl⟩

/-- A uuid parser for witness inputs: only the string "p1" parses. -/
def parse0 : String → Option UUID := fun s => if s = "p1" then some 42 else none

/-- First payload item of the witness request. -/
def reqItemA : ReqItem := ⟨"p1", "A", 5, "imgA", 9, 2⟩

/-- Second payload item of the witness request (never persisted). -/
def reqItemB : ReqItem := ⟨"p2", "B", 6, "imgB", 9, 1⟩

/-- A create-order payload with two items. -/
def twoItemPayload : OrderPayload :=
  ⟨[reqItemA, reqItemB], "addr", "city", "ph", "po", "gh", 10, 2, 1, 13, "pay_1", "paid"⟩

/-- A create-order payload with an empty items array. -/
def emptyPayload : OrderPayload :=
  ⟨[], "addr", "city", "ph", "po", "gh", 10, 2, 1, 13, "pay_1", "paid"⟩

/-- Witness for C10: the empty payload panics; the two-item payload yields a
single-item aggregate built from the first item only. -/
theorem createOrderHandler_first_item_only_witness :
    (emptyPayload.orderItems = [] ∧ CreateOrderHandler parse0 3 7 emptyPayload = none) ∧
    (twoItemPayload.orderItems = reqItemA :: [reqItemB] ∧
      parse0 reqItemA.product = some 42 ∧
      ∃ ord, CreateOrderHandler parse0 3 7 twoItemPayload = some (some ord) ∧
        ord.orderItems =
          [{ itemID := 0, name := reqItemA.name, price := reqItemA.price
             quantity := reqItemA.quantity, image := reqItemA.image, productID := 42
             orderID := 0, createdAt := 0 }] ∧
        ∀ (now2 : Nat) (st : OrdersStore), ∃ st4 res,
          CreateOrder faultsNone now2 st ord = some (st4, some res, none) ∧
          st4.items = st.items ++
            [{ itemID := st.nextId + 3, name := reqItemA.name, price := reqItemA.price
               quantity := reqItemA.quantity, image := reqItemA.image, productID := 42
               orderID := st.nextId + 1, createdAt := now2 }]) :=
  ⟨⟨rfl, (createOrderHandler_first_item_only parse0 3 7 emptyPayload).1 rfl⟩,
   ⟨rfl, by decide,
    (createOrderHandler_first_item_only parse0 3 7 twoItemPayload).2
      reqItemA [reqItemB] 42 rfl (by decide)⟩⟩

instance : IsTotal Product createdLE := ⟨fun a b => Nat.le_total a.createdAt b.createdAt⟩

instance : IsTrans Product createdLE := ⟨fun _ _ _ hab hbc => Nat.le_trans hab hbc⟩

/-- A wildcard-free literal segment of a LIKE pattern followed by `%`
matches a text exactly when the lowered segment is a prefix of the lowered
text. -/
theorem likeMatch_literal_sound : ∀ (kw t : List Char),
    (∀ c ∈ kw, c ≠ '%' ∧ c ≠ '_') →
    likeMatch (kw ++ ['%']) t = true →
    (kw.map Char.toLower) <+: (t.map Char.toLower)
  | [], t, _, _ => ⟨t.map Char.toLower, rfl⟩
  | c :: kw, t, hw, h => by
    have hc := hw c (List.mem_cons_self c kw)
    rw [List.cons_append] at h
    simp only [likeMatch] at h
    rw [if_neg hc.1] at h
    cases t with
    | nil => simp at h
    | cons x t =>
      replace h : ((if c = '_' then true else Char.toLower c == Char.toLower x)
          && likeMatch (kw ++ ['%']) t) = true := h
      rw [if_neg hc.2] at h
      have h1 := (Bool.and_eq_true _ _).mp h
      have hx : Char.toLower c = Char.toLower x := eq_of_beq h1.1
      obtain ⟨v, hv⟩ :=
        likeMatch_literal_sound kw t (fun d hd => hw d (List.mem_cons_of_mem _ hd)) h1.2
      exact ⟨v, by rw [List.map_cons, List.map_cons, List.cons_append, hv, hx]⟩

/-- A pattern opening with `%` matches a text exactly when the rest of the
pattern matches some suffix of the text. -/
theorem likeMatch_percent_elim (ps s : List Char)
    (h : likeMatch ('%' :: ps) s = true) :
    ∃ t, t <:+ s ∧ likeMatch ps t = true := by
  simp [likeMatch, List.any_eq_true] at h
  obtain ⟨t, ht, h2⟩ := h
  exact ⟨t, ht, h2⟩

/-- Soundness of the LIKE filter on wildcard-free keywords: a name matching
`%keyword%` contains the keyword case-insensitively. -/
theorem likeMatch_wildcard_free_sound (kw s : List Char)
    (hw : ∀ c ∈ kw, c ≠ '%' ∧ c ≠ '_')
    (h : likeMatch ('%' :: (kw ++ ['%'])) s = true) :
    (kw.map Char.toLower) <:+: (s.map Char.toLower) := by
  obtain ⟨t, hts, ht⟩ := likeMatch_percent_elim _ _ h
  obtain ⟨v, hv⟩ := likeMatch_literal_sound kw t hw ht
  obtain ⟨u, hu⟩ := hts
  refine ⟨u.map Char.toLower, v, ?_⟩
  rw [List.append_assoc, hv, ← List.map_append, hu]

/-- A review submission carrying a rating, as built by the review handler
(the row id is assigned by the database on insert). -/
def mkReview (pid uid : UUID) (r : Int) : Review := ⟨0, "", r, "", uid, pid, 0⟩

/-- A sequence of `CreateProductReview` calls for one product, one call per
rating in `rs`. -/
def insertReviews (st : ProdStore) (pid uid : UUID) (rs : List Int) : ProdStore :=
  rs.foldl (fun s r => (CreateProductReview s (mkReview pid uid r)).1) st

/-- Invariant tied to the review-aggregation claim: the store holds exactly
the product under test (keyed by `pid`), its stored aggregate matches the
ratings inserted so far (`done`), and the stored reviews for `pid` are
exactly those ratings. -/
def ReviewAggInv (st : ProdStore) (pid : UUID) (prod0 : Product) (done : List Int) : Prop :=
  (∃ p, st.products = [p] ∧ p.productId = pid ∧
    (done = [] → p = prod0) ∧
    (done ≠ [] → p.ratings = Int.tdiv done.sum (done.length : Int) ∧
      p.numOfReviews = (done.length : Int))) ∧
  (FetchReviewById st pid).map (fun r => r.rating) = done

/-- Characterization of one `CreateProductReview` call: the single catalog
row for `pid` is overwritten with the recomputed aggregate (count grown by
one, rating the truncated mean including the new rating). -/
theorem createProductReview_products (st : ProdStore) (p : Product) (pid uid : UUID) (r : Int)
    (hps : st.products = [p]) (hpid : p.productId = pid) :
    (CreateProductReview st (mkReview pid uid r)).1.products =
      [{ p with
          ratings := Int.tdiv (totalRating (FetchReviewById st pid) + r)
            (((FetchReviewById st pid).length : Int) + 1)
          numOfReviews := ((FetchReviewById st pid).length : Int) + 1 }] := by
  have hfetch : FetchProductById st pid = some p := by
    rw [FetchProductById, hps]
    simp [hpid]
  simp only [CreateProductReview, mkReview, hfetch, InsertReview, UpdateProduct, hps,
    List.map_cons, List.map_nil, totalRating, List.map_append, List.sum_append,
    List.length_append, List.length_cons, List.length_nil, List.sum_cons, List.sum_nil]
  simp [hpid]

/-- Characterization of one `CreateProductReview` call on the reviews
table: the new row is appended with a fresh id. -/
theorem createProductReview_reviews (st : ProdStore) (p : Product) (pid uid : UUID) (r : Int)
    (hps : st.products = [p]) (hpid : p.productId = pid) :
    (CreateProductReview st (mkReview pid uid r)).1.reviews =
      st.reviews ++ [{ mkReview pid uid r with reviewsId := st.nextId + 1 }] := by
  have hfetch : FetchProductById st pid = some p := by
    rw [FetchProductById, hps]
    simp [hpid]
  simp only [CreateProductReview, mkReview, hfetch, InsertReview, UpdateProduct]

/-- One `CreateProductReview` call extends the aggregate invariant by the
new rating. -/
theorem reviewAggInv_step (st : ProdStore) (pid uid : UUID) (prod0 : Product)
    (done : List Int) (r : Int) (h : ReviewAggInv st pid prod0 done) :
    ReviewAggInv (CreateProductReview st (mkReview pid uid r)).1 pid prod0 (done ++ [r]) := by
  obtain ⟨⟨p, hps, hpid, _, _⟩, hrev⟩ := h
  have hlen : (FetchReviewById st pid).length = done.length := by
    rw [← hrev, List.length_map]
  have hsum : totalRating (FetchReviewById st pid) = done.sum := by
    rw [totalRating, hrev]
  constructor
  · refine ⟨_, createProductReview_products st p pid uid r hps hpid, hpid, ?_, fun _ => ?_⟩
    · intro hcontra
      exact absurd hcontra (by simp)
    · constructor
      · simp only [hsum, hlen, List.sum_append, List.sum_cons, List.sum_nil, add_zero,
          List.length_append, List.length_cons, List.length_nil, Nat.cast_add, Nat.cast_one,
          Nat.cast_zero, zero_add]
      · simp only [hlen, List.length_append, List.length_cons, List.length_nil,
          Nat.cast_add, Nat.cast_one, Nat.cast_zero, zero_add]
  · rw [FetchReviewById, createProductReview_reviews st p pid uid r hps hpid,
      List.filter_append, List.map_append]
    rw [FetchReviewById] at hrev
    rw [hrev]
    simp [mkReview]

/-- Folding a whole rating sequence through `CreateProductReview`
preserves the aggregate invariant. -/
theorem reviewAggInv_fold (pid uid : UUID) (prod0 : Product) :
    ∀ (rs done : List Int) (st : ProdStore),
      ReviewAggInv st pid prod0 done →
      ReviewAggInv (insertReviews st pid uid rs) pid prod0 (done ++ rs)
  | [], done, st, h => by simpa [insertReviews] using h
  | r :: rs, done, st, h => by
    have h1 := reviewAggInv_step st pid uid prod0 done r h
    have h2 := reviewAggInv_fold pid uid prod0 rs (done ++ [r]) _ h1
    rw [insertReviews] at h2 ⊢
    rw [List.foldl_cons]
    simpa [List.append_assoc] using h2

/-- C6: starting from a product with zero reviews, after each of the first
`k` insertions of a sequence of valid ratings (`1 ≤ r ≤ 5`), the stored
rating equals the floor of the mean of the ratings inserted so far and the
stored review count equals `k`.  (On this nonnegative domain the Go
truncated division coincides with the floor the spec states.) -/
theorem createProductReview_rating_mean (st : ProdStore) (prod : Product) (pid uid : UUID)
    (rs : List Int) (k : Nat)
    (hprod : st.products = [prod]) (hpid : prod.productId = pid)
    (hrev : FetchReviewById st pid = [])
    (hr : ∀ r ∈ rs, 1 ≤ r ∧ r ≤ 5)
    (hk1 : 1 ≤ k) (hk2 : k ≤ rs.length) :
    ∃ p, FetchProductById (insertReviews st pid uid (rs.take k)) pid = some p ∧
      p.ratings = Int.fdiv ((rs.take k).sum) (k : Int) ∧
      p.numOfReviews = (k : Int) := by
  have hinv0 : ReviewAggInv st pid prod [] :=
    ⟨⟨prod, hprod, hpid, fun _ => rfl, fun hc => absurd rfl hc⟩, by rw [hrev]; rfl⟩
  have hinv := reviewAggInv_fold pid uid prod (rs.take k) [] st hinv0
  rw [List.nil_append] at hinv
  obtain ⟨⟨p, hps, hpidp, _, hfull⟩, _⟩ := hinv
  have hlen : (rs.take k).length = k := by
    rw [List.length_take]
    exact Nat.min_eq_left hk2
  have hne : rs.take k ≠ [] := by
    intro hcon
    have h0 : (rs.take k).length = 0 := by rw [hcon]; rfl
    rw [hlen] at h0
    omega
  obtain ⟨hrat, hnum⟩ := hfull hne
  refine ⟨p, ?_, ?_, ?_⟩
  · rw [FetchProductById, hps]
    simp [hpidp]
  · have hsum : 0 ≤ (rs.take k).sum :=
      List.sum_nonneg (fun x hx => le_trans zero_le_one (hr x (List.mem_of_mem_take hx)).1)
    rw [Int.fdiv_eq_tdiv hsum (Int.natCast_nonneg k), hrat, hlen]
  · rw [hnum, hlen]

/-- A product store holding the sample product and no reviews. -/
def reviewStore0 : ProdStore := ⟨[sampleProduct], [], 0⟩

/-- Witness for C6: two insertions of ratings 4 and 5 leave the stored
rating at `floor(9/2) = 4` and the review count at 2. -/
theorem createProductReview_rating_mean_witness :
    (reviewStore0.products = [sampleProduct] ∧ sampleProduct.productId = 11 ∧
      FetchReviewById reviewStore0 11 = [] ∧
      (∀ r ∈ ([4, 5, 5] : List Int), 1 ≤ r ∧ r ≤ 5) ∧
      1 ≤ 2 ∧ 2 ≤ ([4, 5, 5] : List Int).length) ∧
    ∃ p, FetchProductById (insertReviews reviewStore0 11 2 (([4, 5, 5] : List Int).take 2)) 11
        = some p ∧
      p.ratings = Int.fdiv ((([4, 5, 5] : List Int).take 2).sum) ((2 : Nat) : Int) ∧
      p.numOfReviews = ((2 : Nat) : Int) :=
  ⟨⟨rfl, rfl, rfl, by decide, by decide, by decide⟩,
   createProductReview_rating_mean reviewStore0 sampleProduct 11 2 [4, 5, 5] 2
     rfl rfl rfl (by decide) (by decide) (by decide)⟩

end Shopit
